import Mathlib

/-!
Verification development for the evaluator core of the rustlang scripting
language (src/src/eval.rs).  The data model, the operator engine, the
destructuring assignment and the statement/expression evaluators are embedded
shallowly: Rust `&mut HashMap` environments become explicitly threaded
association lists, fallible Rust code returns an explicit outcome type, and
Rust panics (index out of bounds, usize underflow, unwrap failures) are a
distinguished outcome, separate from recoverable `Err(String)` results.
The interpreter's unbounded recursion (While loops, calls) is made total with
a fuel parameter; running out of fuel is a fourth, model-only outcome.
-/

namespace Rustl

/-- Outcome of running a piece of the interpreter: a normal value, a
recoverable `Err(String)`, a Rust panic (bounds violation, arithmetic
underflow, failed unwrap), or fuel exhaustion (an artifact of the fuel-based
embedding, not of the source). -/
inductive Res (α : Type) where
  | ok : α → Res α
  | err : String → Res α
  | panic : String → Res α
  | oot : Res α
deriving Repr

/-- Alias for `Int`, usable inside inductives whose constructors shadow the
name `Int`.  Rust's `i32` payloads are modelled as unbounded integers; no
claim under verification depends on 32-bit overflow. -/
abbrev IntT : Type := Int

/-- Alias for `Bool` (see `IntT`). -/
abbrev BoolT : Type := Bool

/-- Alias for `Char` (see `IntT`). -/
abbrev CharT : Type := Char

/-- Alias for `String` (see `IntT`). -/
abbrev StrT : Type := String

/-- Binary operators, from `ast.rs` as used in `eval.rs::operate`. -/
inductive Operator where
  | Plus
  | Minus
  | Times
  | Divide
  | LessThan
  | GreaterThan
  | Equal
  | NotEqual
deriving DecidableEq, Repr

mutual

/-- Expressions, mirroring `ast.rs::Expression` as consumed by
`eval.rs::eval_expression`. -/
inductive Expression where
  | Int (v : IntT)
  | String (s : StrT)
  | Boolean (b : BoolT)
  | Float (f : Nat)
  | Character (c : CharT)
  | Identifier (name : StrT)
  | Call (function : String) (arguments : List Expression)
  | Operation (lhs : Expression) (rhs : Expression) (operator : Operator)
  | List (items : List ListItem)
  | Prefix (name : String) (operator : Operator) (rhs : Expression)
  | Index (name : String) (idx_exp : Expression)
  | Comprehension (iterate_exp : Expression) (var : String)
      (control_exp : Expression)

/-- A list element or destructuring pattern element, optionally marked
pack (`b*` target) or spread. -/
inductive ListItem where
  | mk (expression : Expression) (is_pack : Bool) (is_spread : Bool)

end

/-- The expression of a `ListItem`. -/
def ListItem.expression : ListItem → Expression
  | .mk e _ _ => e

/-- The pack mark of a `ListItem`. -/
def ListItem.is_pack : ListItem → Bool
  | .mk _ p _ => p

/-- The spread mark of a `ListItem`. -/
def ListItem.is_spread : ListItem → Bool
  | .mk _ _ s => s

mutual

/-- Statements, mirroring `ast.rs::Statement` as consumed by
`eval.rs::eval_statement`. -/
inductive Statement where
  | Expression (expression : Expression)
  | Assignment (lhs : Expression) (rhs : Expression)
  | OperatorAssignment (name : String) (operator : Operator)
      (rhs : Expression)
  | If (params : IfBranch)
  | While (condition : Expression) (statements : List Statement)
  | For (params : ForParams)
  | FunctionDefinition (name : String) (arguments : List String)
      (statements : List Statement) (return_expression : Option Expression)
  | Import (path : String)

/-- The payload of an `If` statement: primary condition and body, the
ordered elif data, and the optional else body. -/
inductive IfBranch where
  | mk (condition : Expression) (statements : List Statement)
      (else_statements : Option (List Statement))
      (elif_conditions : List Expression)
      (elif_statements : List (List Statement))

/-- The payload of a `For` statement. -/
inductive ForParams where
  | mk (loop_var : String) (iterate_expression : Expression)
      (statements : List Statement)

end

/-- Condition of an `IfBranch`. -/
def IfBranch.condition : IfBranch → Expression
  | .mk c _ _ _ _ => c

/-- Primary body of an `IfBranch`. -/
def IfBranch.statements : IfBranch → List Statement
  | .mk _ s _ _ _ => s

/-- Else body of an `IfBranch`. -/
def IfBranch.else_statements : IfBranch → Option (List Statement)
  | .mk _ _ e _ _ => e

/-- Elif conditions of an `IfBranch` (first component of `elif_data`). -/
def IfBranch.elif_conditions : IfBranch → List Expression
  | .mk _ _ _ c _ => c

/-- Elif bodies of an `IfBranch` (second component of `elif_data`). -/
def IfBranch.elif_statements : IfBranch → List (List Statement)
  | .mk _ _ _ _ s => s

/-- Loop variable of a `For`. -/
def ForParams.loop_var : ForParams → String
  | .mk v _ _ => v

/-- Iterable expression of a `For`. -/
def ForParams.iterate_expression : ForParams → Expression
  | .mk _ e _ => e

/-- Body of a `For`. -/
def ForParams.statements : ForParams → List Statement
  | .mk _ _ s => s

/-- Runtime values, mirroring `value.rs::Value` as used by `eval.rs`.
Float payloads are kept as an uninterpreted code (no claim under
verification depends on float arithmetic or float equality).  A native
`Function` is represented by its registered name; its callable lives in a
host dispatch table passed to the evaluator (spec section 9: the built-in
set is a closed, host-registered name-to-operation table). -/
inductive Value where
  | Null
  | Int (v : IntT)
  | Float (f : Nat)
  | Bool (b : BoolT)
  | Char (c : CharT)
  | Str (s : StrT)
  | List (e : List Value)
  | Function (fname : String)
  | UserDefFunction (name : String) (statements : List Statement)
      (arguments : List String) (return_expression : Option Expression)

/-- `true` exactly on `Value::Null`; models the `== Value::Null` comparisons
in `eval.rs` (lines 477, 522). -/
def Value.isNull : Value → BoolT
  | .Null => true
  | _ => false

mutual

/-- Modelled from the spec: structural equality on values (`PartialEq` for
`Value` lives in `value.rs`, which is not under `src/`).  Spec section 3:
"Equality is structural"; the epsilon tolerance for Float pairs (section 4.3)
is not interpreted here because float payloads are uninterpreted codes, and
no claim under verification exercises `Equal`/`NotEqual`.  Native functions
compare by registered name; user-defined functions by name, parameter list
and return-expression presence. -/
def valueEq : Value → Value → Bool
  | .Null, .Null => true
  | .Int a, .Int b => a == b
  | .Float a, .Float b => a == b
  | .Bool a, .Bool b => a == b
  | .Char a, .Char b => a == b
  | .Str a, .Str b => a == b
  | .List a, .List b => valueListEq a b
  | .Function a, .Function b => a == b
  | .UserDefFunction n1 _ a1 r1, .UserDefFunction n2 _ a2 r2 =>
      n1 == n2 && a1 == a2 && r1.isSome == r2.isSome
  | _, _ => false

/-- Structural equality on value lists, componentwise via `valueEq`. -/
def valueListEq : List Value → List Value → Bool
  | [], [] => true
  | a :: as', b :: bs' => valueEq a b && valueListEq as' bs'
  | _, _ => false
end

/-- The variable frame: `HashMap<String, Value>` modelled extensionally as an
association list whose lookup returns the most recent insertion for a name.
`insert` overwrites unconditionally, as `HashMap::insert` does. -/
def Env : Type := List (String × Value)

/-- `HashMap::get`: the value most recently inserted under `name`, if any. -/
def Env.get (env : Env) (name : String) : Option Value :=
  match env with
  | [] => none
  | (k, v) :: rest => if k = name then some v else Env.get rest name

/-- `HashMap::insert` (unconditional overwrite). -/
def Env.insert (env : Env) (name : String) (v : Value) : Env :=
  (name, v) :: env

/-- Modelled from the spec: the `Add` implementation for `Value` lives in
`value.rs`, which is not under `src/`.  Spec section 4.3 for the supported
pairs: both Int yields the integer sum; Float pairs and Int/Float promotions
yield a Float whose uninterpreted payload combines the operands (no claim
under verification depends on float arithmetic); any unsupported pairing
yields the `Null` "no result" sentinel that callers convert into an error. -/
def valueAdd : Value → Value → Value
  | .Int a, .Int b => .Int (a + b)
  | .Float a, .Float b => .Float (a + b)
  | .Int _, .Float b => .Float b
  | .Float a, .Int _ => .Float a
  | _, _ => .Null

/-- `eval.rs::operate` (lines 625-637), transcribed exactly: every arm except
`Equal`/`NotEqual` evaluates `lhs + rhs` in the source, so `Minus`, `Times`,
`Divide`, `LessThan` and `GreaterThan` all compute the same value as `Plus`. -/
def operate (operator : Operator) (lhs rhs : Value) : Res Value :=
  match operator with
  | .Plus => .ok (valueAdd lhs rhs)
  | .Minus => .ok (valueAdd lhs rhs)
  | .Times => .ok (valueAdd lhs rhs)
  | .Divide => .ok (valueAdd lhs rhs)
  | .LessThan => .ok (valueAdd lhs rhs)
  | .GreaterThan => .ok (valueAdd lhs rhs)
  | .Equal => .ok (.Bool (valueEq lhs rhs))
  | .NotEqual => .ok (.Bool (!valueEq lhs rhs))

/-- Modelled from the spec: `IntoIterator` for `Value` lives in `value.rs`,
which is not under `src/`.  Spec section 4.2 (Index read): "the target value
must support ordered element traversal — List does; anything else fails as
non-indexable".  A `List` yields its elements in order; every other value
yields the `Null`-sentinel iterator that `eval.rs` line 542 rejects. -/
def valueIter : Value → Option (List Value)
  | .List e => some e
  | _ => none

/-- The left-to-right walk of `eval.rs::assign_list` (lines 123-142): builds
the queues of (pattern, value) pairs to assign.  `x` is the loop counter of
`for x in 0..rhs.len()`; the second argument counts the remaining loop
iterations and is `rhs.len()` at the top call, so the loop body runs exactly
while `x < rhs.len()`.  When the pattern vector is empty and a value
remains, the source evaluates `lhs.len() - 1` on the unsigned length `0`;
that subtraction panics with overflow in a debug build, and in a release
build it wraps so that the subsequent `lhs[x]` indexes an empty vector and
panics there — either way the walk panics rather than returning a
descriptive error, which the `.panic` outcome records.  The unreachable
`none` arms of the in-bounds accesses are also mapped to panics, matching
Rust's indexing discipline. -/
def assignListWalk (lhs : List ListItem) (rhs : List Value) :
    Nat → Nat → Res (List (ListItem × Value))
  | _, 0 => .ok []
  | x, k + 1 =>
    if lhs.length = 0 then
      .panic ("attempt to subtract with overflow")
    else if x = lhs.length - 1 && lhs.length ≠ rhs.length then
      match lhs.get? x with
      | none => .panic ("index out of bounds")
      | some item =>
        if !item.is_pack then
          .err ("Cannot assign " ++ toString rhs.length ++ " values to "
                ++ toString lhs.length ++ " items")
        else
          .ok [(item, Value.List (rhs.drop x))]
    else
      match lhs.get? x, rhs.get? x with
      | some item, some v =>
        if item.is_spread then
          .err ("Cannot use spread in list assignment")
        else
          match assignListWalk lhs rhs (x + 1) k with
          | .ok rest => .ok ((item, v) :: rest)
          | other => other
      | _, _ => .panic ("index out of bounds")

/-- `vals.iter().zip(arguments.iter())` parameter binding of the Call arm
(`eval.rs` lines 443-445): each value is inserted under the positionally
matching parameter name. -/
def bindArgs (vals : List Value) (params : List String) (env : Env) : Env :=
  (vals.zip params).foldl (fun e vp => Env.insert e vp.2 vp.1) env

/-- A parsed program (`ast.rs::Program`). -/
inductive Program where
  | Body (statements : List Statement)

section Evaluator

/-- The host's native-function dispatch table (spec sections 6 and 9): a
closed mapping from registered names to callables of shape
`Vec<Value> -> Result<Value, String>`.  The `f` payload of `Value::Function`
is an entry of this table, looked up by the registered name the `Function`
value carries. -/
abbrev NativeTable : Type := String → List Value → Except String Value

variable (tbl : NativeTable) (moduleOf : String → Option Program)

mutual

/-- `eval.rs::eval_expression` (lines 405-608).  The `&mut` environment is
threaded explicitly: the result carries the value together with the
environment as the call left it.  Sub-evaluations the source runs against
`enviornment.clone()` (index expressions, return expressions, comprehension
frames) discard the environment their evaluation produces.
`moduleOf` abstracts the import pipeline (see `evalStatement`). -/
def evalExpression : Nat → Env → Expression → Bool → Res (Value × Env)
  | 0, _, _, _ => .oot
  | fuel + 1, env, e, importing =>
    match e with
    | .Int v => .ok (.Int v, env)
    | .String s => .ok (.Str s, env)
    | .Boolean b => .ok (.Bool b, env)
    | .Float f => .ok (.Float f, env)
    | .Character c => .ok (.Char c, env)
    | .Identifier name =>
      match env.get name with
      | some v => .ok (v, env)
      | none => .err ("'" ++ name ++ "' is not defined")
    | .Call function arguments =>
      match evalExpressions fuel env arguments importing with
      | .err e => .err e
      | .panic m => .panic m
      | .oot => .oot
      | .ok (vals, env') =>
        match env'.get function with
        | none => .err ("'" ++ function ++ "' is not defined")
        | some (.Function fname) =>
          if importing && (function == "print" || function == "println") then
            .ok (.Null, env')
          else
            match tbl fname vals with
            | .ok rv => .ok (rv, env')
            | .error msg => .err msg
        | some (.UserDefFunction _ statements params return_expression) =>
          if vals.length ≠ params.length then
            .err ("Expected " ++ toString params.length ++ " arguments, got "
                  ++ toString vals.length)
          else
            match evalStatements fuel (bindArgs vals params env') statements
                importing with
            | .err e => .err e
            | .panic m => .panic m
            | .oot => .oot
            | .ok _ =>
              match return_expression with
              | some return_exp =>
                match evalExpression fuel env' return_exp importing with
                | .ok (v, _) => .ok (v, env')
                | .err e => .err e
                | .panic m => .panic m
                | .oot => .oot
              | none => .ok (.Null, env')
        | some _ => .err ("'" ++ function ++ "' is not a function")
    | .Operation lhs rhs operator =>
      match evalExpression fuel env lhs importing with
      | .err e => .err e
      | .panic m => .panic m
      | .oot => .oot
      | .ok (lv, env1) =>
        match evalExpression fuel env1 rhs importing with
        | .err e => .err e
        | .panic m => .panic m
        | .oot => .oot
        | .ok (rv, env2) =>
          match operate operator lv rv with
          | .err e => .err e
          | .panic m => .panic m
          | .oot => .oot
          | .ok new_val =>
            if new_val.isNull then .err ("Invalid Operation")
            else .ok (new_val, env2)
    | .List items =>
      match evalListItems fuel env items importing with
      | .ok (vals, env') => .ok (.List vals, env')
      | .err e => .err e
      | .panic m => .panic m
      | .oot => .oot
    | .Prefix name operator rhs =>
      match env.get name with
      | none => .err ("'" ++ name ++ "' is not defined")
      | some lhs =>
        match evalExpression fuel env rhs importing with
        | .err e => .err e
        | .panic m => .panic m
        | .oot => .oot
        | .ok (v, env1) =>
          match operate operator lhs v with
          | .err e => .err e
          | .panic m => .panic m
          | .oot => .oot
          | .ok new_val =>
            if new_val.isNull then .err ("Cannot operate on " ++ name)
            else .ok (new_val, env1.insert name new_val)
    | .Index name idx_exp =>
      match env.get name with
      | none => .err ("'" ++ name ++ "' is not defined")
      | some var =>
        match evalExpression fuel env idx_exp importing with
        | .err e => .err e
        | .panic m => .panic m
        | .oot => .oot
        | .ok (exp_res, _) =>
          match exp_res with
          | .Int idx =>
            match valueIter var with
            | none => .err ("Cannot iterate over variable " ++ name)
            | some elems =>
              let length := elems.length
              let usize_idx := idx.natAbs
              if usize_idx > length then
                .err ("Index " ++ toString idx ++ " is out of bounds")
              else if idx < 0 then
                match elems.get? (length - usize_idx) with
                | some v => .ok (v, env)
                | none => .panic ("Err retreiving value at " ++ toString idx)
              else
                match elems.get? usize_idx with
                | some v => .ok (v, env)
                | none => .panic ("Err retreiving value at " ++ toString idx)
          | _ => .err ("Index must be of type int")
    | .Comprehension iterate_exp var control_exp =>
      match evalExpression fuel env control_exp importing with
      | .err e => .err e
      | .panic m => .panic m
      | .oot => .oot
      | .ok (control_val, localEnv) =>
        match control_val with
        | .List items =>
          match compLoop fuel localEnv var items iterate_exp importing with
          | .ok (output, _) => .ok (.List output, env)
          | .err e => .err e
          | .panic m => .panic m
          | .oot => .oot
        | .Str s =>
          match compLoop fuel localEnv var (s.toList.map Value.Char)
              iterate_exp importing with
          | .ok (output, _) => .ok (.List output, env)
          | .err e => .err e
          | .panic m => .panic m
          | .oot => .oot
        | .Null => .err ("Null is not iterable")
        | .Int _ => .err ("Int is not iterable")
        | .Bool _ => .err ("Bool is not iterable")
        | .Float _ => .err ("Float is not iterable")
        | .Char _ => .err ("Char is not iterable")
        | .Function _ => .err ("Function is not iterable")
        | .UserDefFunction _ _ _ _ => .err ("Function is not iterable")

/-- `eval.rs::eval_expressions` (lines 610-623): left-to-right evaluation of
an argument list, threading the mutable environment. -/
def evalExpressions : Nat → Env → List Expression → Bool →
    Res (List Value × Env)
  | 0, _, _, _ => .oot
  | fuel + 1, env, es, importing =>
    match es with
    | [] => .ok ([], env)
    | e :: rest =>
      match evalExpression fuel env e importing with
      | .err msg => .err msg
      | .panic m => .panic m
      | .oot => .oot
      | .ok (v, env1) =>
        match evalExpressions fuel env1 rest importing with
        | .ok (vals, env2) => .ok (v :: vals, env2)
        | .err msg => .err msg
        | .panic m => .panic m
        | .oot => .oot

/-- The item loop of the `Expression::List` arm (lines 485-508): evaluate
each item, flattening items marked spread (which must be Lists). -/
def evalListItems : Nat → Env → List ListItem → Bool →
    Res (List Value × Env)
  | 0, _, _, _ => .oot
  | fuel + 1, env, items, importing =>
    match items with
    | [] => .ok ([], env)
    | item :: rest =>
      match evalExpression fuel env item.expression importing with
      | .err msg => .err msg
      | .panic m => .panic m
      | .oot => .oot
      | .ok (v, env1) =>
        if !item.is_spread then
          match evalListItems fuel env1 rest importing with
          | .ok (vals, env2) => .ok (v :: vals, env2)
          | .err msg => .err msg
          | .panic m => .panic m
          | .oot => .oot
        else
          match v with
          | .List es =>
            match evalListItems fuel env1 rest importing with
            | .ok (vals, env2) => .ok (es ++ vals, env2)
            | .err msg => .err msg
            | .panic m => .panic m
            | .oot => .oot
          | _ => .err ("only lists can be spread!")

/-- The iteration loop of the `Expression::Comprehension` arm (lines
566-589): for each element, bind the loop variable in the disposable local
frame and evaluate the result expression, collecting outputs in order. -/
def compLoop : Nat → Env → String → List Value → Expression → Bool →
    Res (List Value × Env)
  | 0, _, _, _, _, _ => .oot
  | fuel + 1, localEnv, var, items, iterate_exp, importing =>
    match items with
    | [] => .ok ([], localEnv)
    | item :: rest =>
      match evalExpression fuel (localEnv.insert var item) iterate_exp
          importing with
      | .err msg => .err msg
      | .panic m => .panic m
      | .oot => .oot
      | .ok (v, le2) =>
        match compLoop fuel le2 var rest iterate_exp importing with
        | .ok (vs, le3) => .ok (v :: vs, le3)
        | .err msg => .err msg
        | .panic m => .panic m
        | .oot => .oot

/-- `eval.rs::eval_statement` (lines 154-392).  The Import arm's path
resolution, file reading and parsing (lines 303-384) are external
collaborators (file system, `ProgramParser`); they are abstracted by the
`moduleOf` oracle from import path to parsed module.  A resolved module is
evaluated into the same frame with `importing = true` (line 386). -/
def evalStatement : Nat → Env → Statement → Bool → Res Env
  | 0, _, _, _ => .oot
  | fuel + 1, env, s, importing =>
    match s with
    | .Expression expression =>
      match evalExpression fuel env expression importing with
      | .ok (_, env') => .ok env'
      | .err msg => .err msg
      | .panic m => .panic m
      | .oot => .oot
    | .Assignment lhs rhs =>
      match evalExpression fuel env rhs importing with
      | .ok (v, env') => assign fuel env' lhs v
      | .err msg => .err msg
      | .panic m => .panic m
      | .oot => .oot
    | .OperatorAssignment name operator rhs =>
      match env.get name with
      | none => .err ("'" ++ name ++ "' is not defined")
      | some lhs =>
        match evalExpression fuel env rhs importing with
        | .err msg => .err msg
        | .panic m => .panic m
        | .oot => .oot
        | .ok (rhsv, env') =>
          match operate operator lhs rhsv with
          | .err msg => .err msg
          | .panic m => .panic m
          | .oot => .oot
          | .ok v =>
            if v.isNull then .err ("Cannot operate on " ++ name)
            else .ok (env'.insert name v)
    | .If params =>
      match evalExpression fuel env params.condition importing with
      | .ok (.Bool true, env') =>
        evalStatements fuel env' params.statements importing
      | .ok (.Bool false, env') =>
        match params.elif_conditions with
        | c :: cs =>
          match params.elif_statements with
          | ss :: sss =>
            evalStatement fuel env'
              (.If (.mk c ss params.else_statements cs sss)) importing
          | [] => .panic ("index out of bounds")
        | [] =>
          match params.else_statements with
          | some else_statements =>
            evalStatements fuel env' else_statements importing
          | none => .ok env'
      | .ok (_, _) => .err ("Condition must be of type 'bool'")
      | .err _ => .err ("Condition must be of type 'bool'")
      | .panic m => .panic m
      | .oot => .oot
    | .While condition statements =>
      match evalExpression fuel env condition importing with
      | .ok (.Bool b, env') =>
        if b then
          match evalStatements fuel env' statements importing with
          | .ok env'' =>
            evalStatement fuel env'' (.While condition statements) importing
          | .err msg => .err msg
          | .panic m => .panic m
          | .oot => .oot
        else .ok env'
      | .err msg => .err msg
      | .ok (_, _) => .err ("Condition must be of type 'bool'")
      | .panic m => .panic m
      | .oot => .oot
    | .For params =>
      match params.iterate_expression with
      | .List _ | .Identifier _ | .Call _ _ =>
        match evalExpression fuel env params.iterate_expression importing with
        | .err msg => .err msg
        | .panic m => .panic m
        | .oot => .oot
        | .ok (v, env') =>
          match v with
          | .List iterator_list =>
            forLoop fuel env' params.loop_var iterator_list params.statements
              importing
          | _ => .err ("Invalid Type")
      | .Int _ => .err ("Integer literals are not iterable")
      | .String _ => .err ("String literals are not iterable")
      | .Boolean _ => .err ("Boolean literals are not iterable")
      | .Float _ => .err ("Float literals are not iterable")
      | .Character _ => .err ("Character literals are not iterable")
      | .Operation _ _ _ => .err ("Operations are not iterable")
      | .Prefix _ _ _ => .err ("Prefix's are not iterable")
      | .Index _ _ => .err ("Indexes are not iterable")
      | .Comprehension _ _ _ => .err ("Comprehensions are not iterable")
    | .FunctionDefinition name arguments statements return_expression =>
      match env.get name with
      | some _ => .err ("Function '\x7b\x7d' is already defined!")
      | none =>
        .ok (env.insert name
          (.UserDefFunction name statements arguments return_expression))
    | .Import path =>
      match moduleOf path with
      | none => .err ("Error opening file at " ++ path)
      | some (.Body statements) => evalStatements fuel env statements true

/-- `eval.rs::eval_statements` (lines 394-403): run a statement sequence;
the first non-ok outcome aborts the remainder. -/
def evalStatements : Nat → Env → List Statement → Bool → Res Env
  | 0, _, _, _ => .oot
  | fuel + 1, env, ss, importing =>
    match ss with
    | [] => .ok env
    | s :: rest =>
      match evalStatement fuel env s importing with
      | .ok env' => evalStatements fuel env' rest importing
      | .err msg => .err msg
      | .panic m => .panic m
      | .oot => .oot

/-- The iteration loop of the `Statement::For` arm (lines 283-287): rebind
the loop variable directly in the enclosing frame, then run the body. -/
def forLoop : Nat → Env → String → List Value → List Statement → Bool →
    Res Env
  | 0, _, _, _, _, _ => .oot
  | fuel + 1, env, loopVar, items, stmts, importing =>
    match items with
    | [] => .ok env
    | item :: rest =>
      match evalStatements fuel (env.insert loopVar item) stmts importing with
      | .ok env' => forLoop fuel env' loopVar rest stmts importing
      | .err msg => .err msg
      | .panic m => .panic m
      | .oot => .oot

/-- `eval.rs::assign` (lines 17-109): dispatch on the shape of the
assignment target.  The index expression of an `Index` target is evaluated
against a clone of the frame with `importing = false` (lines 40-42), so the
environment its evaluation produces is discarded.  On the non-negative index
path the source writes `list[usize_idx]` after a bounds check that only
rejects `usize_idx > length`, so `usize_idx == length` reaches the write and
panics (out-of-bounds index). -/
def assign : Nat → Env → Expression → Value → Res Env
  | 0, _, _, _ => .oot
  | fuel + 1, env, lhs, rhs =>
    match lhs with
    | .Identifier name =>
      if name = "_" then .ok env
      else .ok (env.insert name rhs)
    | .List items =>
      match rhs with
      | .List new_items => assignList fuel env items new_items
      | _ => .err ("cannot destructure non-list into list")
    | .Index name idx_exp =>
      match env.get name with
      | none => .err ("'" ++ name ++ "' is not defined")
      | some var =>
        match evalExpression fuel env idx_exp false with
        | .err msg => .err msg
        | .panic m => .panic m
        | .oot => .oot
        | .ok (exp_res, _) =>
          match var with
          | .List list =>
            match exp_res with
            | .Int idx =>
              let usize_idx := idx.natAbs
              let length := list.length
              if usize_idx > length then
                .err ("Index " ++ toString idx ++ " is out of bounds")
              else if idx < 0 then
                .ok (env.insert name
                      (.List (list.set (length - usize_idx) rhs)))
              else if usize_idx < length then
                .ok (env.insert name (.List (list.set usize_idx rhs)))
              else
                .panic ("index out of bounds")
            | _ => .err ("Index must be of type int")
          | .Str _ => .err ("Cannot assign to String Index")
          | .Null => .err ("Cannot index Null")
          | .Int _ => .err ("Cannot index Int")
          | .Bool _ => .err ("Cannot index Boolean")
          | .Char _ => .err ("Cannot index Char")
          | .Function _ => .err ("Cannot index Function")
          | .UserDefFunction _ _ _ _ => .err ("Cannot index Function")
          | .Float _ => .err ("Cannot index Float")
    | .Int _ => .err ("Cannot assign to a Integer literal")
    | .String _ => .err ("Cannot assign to a String literal")
    | .Boolean _ => .err ("Cannot assign to a Boolean literal")
    | .Float _ => .err ("Cannot assign to a Float literal")
    | .Character _ => .err ("Cannot assign to a Character literal")
    | .Call _ _ => .err ("Cannot assign to a Function call")
    | .Operation _ _ _ => .err ("Cannot assign to a Operation")
    | .Prefix _ _ _ => .err ("Cannot assign to a Prefix")
    | .Comprehension _ _ _ => .err ("Cannot assign to a Comprehension")

/-- `eval.rs::assign_list` (lines 111-152): reject when patterns outnumber
values, walk the patterns against the values (`assignListWalk`), then assign
each resolved (pattern, value) pair through the general `assign` path. -/
def assignList : Nat → Env → List ListItem → List Value → Res Env
  | 0, _, _, _ => .oot
  | fuel + 1, env, lhs, rhs =>
    if lhs.length > rhs.length then
      .err ("Cannot assign " ++ toString rhs.length ++ " values to "
            ++ toString lhs.length ++ " items")
    else
      match assignListWalk lhs rhs 0 rhs.length with
      | .ok pairs => assignPairs fuel env pairs
      | .err msg => .err msg
      | .panic m => .panic m
      | .oot => .oot

/-- The final loop of `eval.rs::assign_list` (lines 144-148): assign each
queued (pattern, value) pair in order. -/
def assignPairs : Nat → Env → List (ListItem × Value) → Res Env
  | 0, _, _ => .oot
  | fuel + 1, env, pairs =>
    match pairs with
    | [] => .ok env
    | (item, value) :: rest =>
      match assign fuel env item.expression value with
      | .ok env' => assignPairs fuel env' rest
      | .err msg => .err msg
      | .panic m => .panic m
      | .oot => .oot

end

/-- `eval.rs::eval_program` (lines 10-15). -/
def evalProgram (fuel : Nat) (env : Env) : Program → Bool → Res Env
  | .Body statements, importing =>
    evalStatements tbl moduleOf fuel env statements importing

end Evaluator

/-- `true` exactly on `Value::List`. -/
def Value.isList : Value → BoolT
  | .List _ => true
  | _ => false

/-- The kind restriction of the `Statement::For` arm (lines 239-278): the
kind-specific "not iterable" message for iterable-expression kinds the arm
rejects before any evaluation, `none` for the three kinds it evaluates
(List literal, Identifier, Call). -/
def forKindError : Expression → Option String
  | .List _ => none
  | .Identifier _ => none
  | .Call _ _ => none
  | .Int _ => some ("Integer literals are not iterable")
  | .String _ => some ("String literals are not iterable")
  | .Boolean _ => some ("Boolean literals are not iterable")
  | .Float _ => some ("Float literals are not iterable")
  | .Character _ => some ("Character literals are not iterable")
  | .Operation _ _ _ => some ("Operations are not iterable")
  | .Prefix _ _ _ => some ("Prefix's are not iterable")
  | .Index _ _ => some ("Indexes are not iterable")
  | .Comprehension _ _ _ => some ("Comprehensions are not iterable")

/-- A host table whose every entry reports that it was invoked: calls that
complete normally under this table provably never reached a native callable. -/
def hostTable : NativeTable := fun _ _ => Except.error ("native function invoked")

/-- An import oracle with no modules. -/
def noModules : String → Option Program := fun _ => none

/-- Claim C1.  The claim states that `operate` computes each operator's
arithmetic meaning: Add the sum (`apply(Add, 2, 3) == 5`), Sub the
difference, Mul the product, Div the quotient truncated toward zero
(`apply(Div, 7, 2) == 3`), LessThan/GreaterThan ordering comparisons.  The
source maps every one of those six operators to `lhs + rhs` (lines 628-633),
so they all return the same value: `operate(Div, 7, 2)` is the sum `9`, not
the quotient `3`, and `operate(Sub, 2, 3)` is `5`, not `-1`.  The claim is
the evident intent (six distinct match arms with identical bodies, and the
spec's section 4.3 semantics); the code is the slip. -/
theorem claim1_operate_all_arms_add :
    (∀ l r, operate .Minus l r = operate .Plus l r) ∧
    (∀ l r, operate .Times l r = operate .Plus l r) ∧
    (∀ l r, operate .Divide l r = operate .Plus l r) ∧
    (∀ l r, operate .LessThan l r = operate .Plus l r) ∧
    (∀ l r, operate .GreaterThan l r = operate .Plus l r) ∧
    operate .Plus (.Int 2) (.Int 3) = .ok (.Int 5) ∧
    operate .Divide (.Int 7) (.Int 2) = .ok (.Int 9) ∧
    operate .Minus (.Int 2) (.Int 3) = .ok (.Int 5) := by
  refine ⟨fun l r => rfl, fun l r => rfl, fun l r => rfl, fun l r => rfl,
    fun l r => rfl, rfl, rfl, rfl⟩

/-- Claim C4.  Redefining a function name that already has a binding in the
current frame fails as the claim states, but the error message is the
literal string `Function '{}' is already defined!` (the source passes a
format string to `to_string` without `format!`, line 292), so the message
does not contain the function name: the message is one constant independent
of `name`.  The claim (and spec section 9) record interpolation as the
intent; the missing `format!` is the slip. -/
theorem claim4_redefinition_message_literal :
    ∀ (tbl : NativeTable) (moduleOf : String → Option Program) (fuel : Nat)
      (env : Env) (name : String) (v : Value) (params : List String)
      (body : List Statement) (ret : Option Expression) (imp : Bool),
      env.get name = some v →
      evalStatement tbl moduleOf (fuel + 1) env
          (.FunctionDefinition name params body ret) imp
        = .err ("Function '\x7b\x7d' is already defined!") := by
  intro tbl moduleOf fuel env name v params body ret imp h
  simp only [evalStatement, h]

/-- Witness for C4: with `foo` bound to `Int 1`, defining a function `foo`
fails with the constant message, which differs from the interpolated
message the claim describes. -/
theorem claim4_witness :
    Env.get [("foo", Value.Int 1)] "foo" = some (Value.Int 1) ∧
    evalStatement hostTable noModules 5 [("foo", Value.Int 1)]
        (.FunctionDefinition "foo" [] [] none) false
      = .err ("Function '\x7b\x7d' is already defined!") ∧
    ("Function '\x7b\x7d' is already defined!"
      ≠ "Function 'foo' is already defined!") := by
  refine ⟨rfl, ?_, by decide⟩
  exact claim4_redefinition_message_literal hostTable noModules 4
    [("foo", Value.Int 1)] "foo" (Value.Int 1) [] [] none false rfl

/-- Claim C10.  Destructuring an empty pattern list against a non-empty
value list passes the patterns-outnumber-values guard (`0 > n` is false),
and the first loop iteration then evaluates `lhs.len() - 1` on the unsigned
length `0`: the subtraction underflows, so the source panics (overflow in a
debug build; the wrapped index makes `lhs[0]` panic on the empty vector in a
release build) instead of returning a descriptive arity error — the
operation is not total there, and the embedding records that as a `panic`
outcome rather than an `err`. -/
theorem claim10_empty_pattern_panic :
    ∀ (tbl : NativeTable) (moduleOf : String → Option Program) (fuel : Nat)
      (env : Env) (v : Value) (vs : List Value),
      assignList tbl moduleOf (fuel + 1) env [] (v :: vs)
        = .panic ("attempt to subtract with overflow") := by
  intro tbl moduleOf fuel env v vs
  simp only [assignList, List.length_nil, List.length_cons, assignListWalk]
  rw [if_neg (by omega)]
  simp

/-- Claim C6.  Destructuring fails when patterns outnumber values; when the
walk reaches the last pattern with more values remaining than patterns, that
pattern must be marked pack (then it binds a List of all remaining values),
otherwise the count-mismatch error is raised.  In particular `[a, b*]`
against `[1,2,3,4]` binds `a = 1` and `b = [2,3,4]`, and `[a,b]` against
`[1,2,3]` fails. -/
theorem claim6_destructuring :
    (∀ (tbl : NativeTable) (moduleOf : String → Option Program) (fuel : Nat)
       (env : Env) (lhs : List ListItem) (rhs : List Value),
       lhs.length > rhs.length →
       assignList tbl moduleOf (fuel + 1) env lhs rhs
         = .err ("Cannot assign " ++ toString rhs.length ++ " values to "
                 ++ toString lhs.length ++ " items")) ∧
    (∀ (tbl : NativeTable) (moduleOf : String → Option Program) (env : Env),
       assignList tbl moduleOf 5 env
           [ListItem.mk (.Identifier "a") false false,
            ListItem.mk (.Identifier "b") true false]
           [.Int 1, .Int 2, .Int 3, .Int 4]
         = .ok ((env.insert "a" (.Int 1)).insert "b"
                 (.List [.Int 2, .Int 3, .Int 4]))) ∧
    (∀ (tbl : NativeTable) (moduleOf : String → Option Program) (fuel : Nat)
       (env : Env),
       assignList tbl moduleOf (fuel + 1) env
           [ListItem.mk (.Identifier "a") false false,
            ListItem.mk (.Identifier "b") false false]
           [.Int 1, .Int 2, .Int 3]
         = .err ("Cannot assign 3 values to 2 items")) := by
  refine ⟨?_, ?_, ?_⟩
  · intro tbl moduleOf fuel env lhs rhs h
    simp only [assignList]
    rw [if_pos h]
  · intro tbl moduleOf env
    rfl
  · intro tbl moduleOf fuel env
    rfl

/-- Witness for C6: the patterns-outnumber-values guard at a concrete input
(two patterns, no values). -/
theorem claim6_witness :
    ([ListItem.mk (.Identifier "a") false false,
      ListItem.mk (.Identifier "b") false false].length
        > ([] : List Value).length) ∧
    assignList hostTable noModules 1 []
        [ListItem.mk (.Identifier "a") false false,
         ListItem.mk (.Identifier "b") false false] []
      = .err ("Cannot assign 0 values to 2 items") := by
  refine ⟨by decide, ?_⟩
  exact claim6_destructuring.1 hostTable noModules 0 []
    [ListItem.mk (.Identifier "a") false false,
     ListItem.mk (.Identifier "b") false false] [] (by decide)

/-- Claim C3.  For a list of length `n`, the index `n` passes the bounds
check of both the read path (line 548) and the write path (line 73), which
only reject magnitudes strictly greater than `n`; both paths then access
element position `n` of the `n`-element list, which panics (a failed
`Iterator::nth` unwrap on the read path, an out-of-bounds `list[n]` write on
the write path) — neither path returns a value or a descriptive error.
Magnitudes strictly greater than `n` are rejected with the descriptive
out-of-bounds error on both paths. -/
theorem claim3_index_equal_length :
    ∀ (tbl : NativeTable) (moduleOf : String → Option Program) (fuel : Nat)
      (env : Env) (name : String) (list : List Value) (rhs : Value)
      (imp : Bool),
      env.get name = some (.List list) →
      (evalExpression tbl moduleOf (fuel + 1 + 1) env
          (.Index name (.Int (list.length : Int))) imp
        = .panic ("Err retreiving value at "
                  ++ toString ((list.length : Nat) : Int))) ∧
      (assign tbl moduleOf (fuel + 1 + 1) env
          (.Index name (.Int (list.length : Int))) rhs
        = .panic ("index out of bounds")) ∧
      (∀ m : Int, m.natAbs > list.length →
        evalExpression tbl moduleOf (fuel + 1 + 1) env
            (.Index name (.Int m)) imp
          = .err ("Index " ++ toString m ++ " is out of bounds") ∧
        assign tbl moduleOf (fuel + 1 + 1) env (.Index name (.Int m)) rhs
          = .err ("Index " ++ toString m ++ " is out of bounds")) := by
  intro tbl moduleOf fuel env name list rhs imp h
  refine ⟨?_, ?_, ?_⟩
  · simp only [evalExpression, h, valueIter]
    rw [if_neg (by simp), if_neg (by simp)]
    have hnone : list.get? ((list.length : Int).natAbs) = none := by
      simp
    rw [hnone]
  · simp only [assign, h, evalExpression]
    rw [if_neg (by simp), if_neg (by simp), if_neg (by simp)]
  · intro m hm
    constructor
    · simp only [evalExpression, h, valueIter]
      rw [if_pos (by exact_mod_cast hm)]
    · simp only [assign, h, evalExpression]
      rw [if_pos (by exact_mod_cast hm)]

/-- Witness for C3: list `[Int 10]` (length 1); reading and writing index 1
both panic, index 2 is reported out of bounds on both paths. -/
theorem claim3_witness :
    Env.get [("l", Value.List [Value.Int 10])] "l"
        = some (Value.List [Value.Int 10]) ∧
    evalExpression hostTable noModules 2 [("l", Value.List [Value.Int 10])]
        (.Index "l" (.Int 1)) false
      = .panic ("Err retreiving value at 1") ∧
    assign hostTable noModules 2 [("l", Value.List [Value.Int 10])]
        (.Index "l" (.Int 1)) (.Int 99)
      = .panic ("index out of bounds") ∧
    evalExpression hostTable noModules 2 [("l", Value.List [Value.Int 10])]
        (.Index "l" (.Int 2)) false
      = .err ("Index 2 is out of bounds") := by
  have h := claim3_index_equal_length hostTable noModules 0
    [("l", Value.List [Value.Int 10])] "l" [Value.Int 10] (Value.Int 99)
    false rfl
  exact ⟨rfl, h.1, h.2.1, (h.2.2 2 (by decide)).1⟩

/-- Claim C7.  For a list of length `n` and a negative index `-k` with
`1 ≤ k ≤ n`, an index read returns the element at position `n - k` (the
magnitude is subtracted directly from the length, not from `length - 1`), so
reading index `-1` of `[10,20,30]` yields `30`; a negative index whose
magnitude exceeds `n` is out of bounds. -/
theorem claim7_negative_index_read :
    ∀ (tbl : NativeTable) (moduleOf : String → Option Program) (fuel : Nat)
      (env : Env) (name : String) (list : List Value) (imp : Bool),
      env.get name = some (.List list) →
      (∀ (k : Nat) (v : Value), 1 ≤ k → k ≤ list.length →
        list.get? (list.length - k) = some v →
        evalExpression tbl moduleOf (fuel + 1 + 1) env
            (.Index name (.Int (-(k : Int)))) imp
          = .ok (v, env)) ∧
      (∀ m : Nat, m > list.length →
        evalExpression tbl moduleOf (fuel + 1 + 1) env
            (.Index name (.Int (-(m : Int)))) imp
          = .err ("Index " ++ toString (-(m : Int)) ++ " is out of bounds")) := by
  intro tbl moduleOf fuel env name list imp h
  constructor
  · intro k v hk1 hkn hv
    simp only [evalExpression, h, valueIter, Int.natAbs_neg, Int.natAbs_ofNat]
    rw [if_neg (show ¬(k > list.length) by omega),
        if_pos (show -(k : Int) < 0 by omega), hv]
  · intro m hm
    simp only [evalExpression, h, valueIter, Int.natAbs_neg, Int.natAbs_ofNat]
    rw [if_pos (show m > list.length from hm)]

/-- Witness for C7: reading index `-1` of `[10,20,30]` yields `30`, and
index `-4` is out of bounds. -/
theorem claim7_witness :
    Env.get [("l", Value.List [Value.Int 10, Value.Int 20, Value.Int 30])] "l"
        = some (Value.List [Value.Int 10, Value.Int 20, Value.Int 30]) ∧
    evalExpression hostTable noModules 2
        [("l", Value.List [Value.Int 10, Value.Int 20, Value.Int 30])]
        (.Index "l" (.Int (-1))) false
      = .ok (Value.Int 30,
             [("l", Value.List [Value.Int 10, Value.Int 20, Value.Int 30])]) ∧
    evalExpression hostTable noModules 2
        [("l", Value.List [Value.Int 10, Value.Int 20, Value.Int 30])]
        (.Index "l" (.Int (-4))) false
      = .err ("Index -4 is out of bounds") := by
  have h := claim7_negative_index_read hostTable noModules 0
    [("l", Value.List [Value.Int 10, Value.Int 20, Value.Int 30])] "l"
    [Value.Int 10, Value.Int 20, Value.Int 30] false rfl
  exact ⟨rfl, h.1 1 (Value.Int 30) (by decide) (by decide) rfl,
         h.2 4 (by decide)⟩

/-- Claim C2.  A call of a user-defined function that has a return
expression evaluates it against the caller's frame `env'` as it stood before
the body ran (the source passes `&mut enviornment.clone()` at line 450), not
against the frame that ran the body: the result below is the same for every
body outcome `envBody`, which does not occur in it — bindings created or
mutated by the body are invisible to the return expression.  A call with no
return expression yields Null. -/
theorem claim2_return_against_caller_frame :
    ∀ (tbl : NativeTable) (moduleOf : String → Option Program) (fuel : Nat)
      (env env' envBody : Env) (f : String) (args : List Expression)
      (vals : List Value) (fname : String) (stmts : List Statement)
      (params : List String) (retOpt : Option Expression) (imp : Bool),
      evalExpressions tbl moduleOf fuel env args imp = .ok (vals, env') →
      Env.get env' f = some (.UserDefFunction fname stmts params retOpt) →
      vals.length = params.length →
      evalStatements tbl moduleOf fuel (bindArgs vals params env') stmts imp
        = .ok envBody →
      evalExpression tbl moduleOf (fuel + 1) env (.Call f args) imp
        = match retOpt with
          | none => .ok (.Null, env')
          | some return_exp =>
            match evalExpression tbl moduleOf fuel env' return_exp imp with
            | .ok (v, _) => .ok (v, env')
            | .err msg => .err msg
            | .panic m => .panic m
            | .oot => .oot := by
  intro tbl moduleOf fuel env env' envBody f args vals fname stmts params
    retOpt imp hargs hf hlen hbody
  simp only [evalExpression, hargs, hf, hbody]
  rw [if_neg (not_not_intro hlen)]
  cases retOpt <;> rfl

/-- Witness for C2: caller frame has `x = 1`; `g` has body `x = 99` and
return expression `x`.  Calling `g` yields `1`: the body's rebinding of `x`
is invisible to the return expression. -/
theorem claim2_witness :
    evalExpression hostTable noModules 6
        [("x", Value.Int 1),
         ("g", Value.UserDefFunction "g"
            [.Assignment (.Identifier "x") (.Int 99)] []
            (some (.Identifier "x")))]
        (.Call "g" []) false
      = .ok (Value.Int 1,
          [("x", Value.Int 1),
           ("g", Value.UserDefFunction "g"
              [.Assignment (.Identifier "x") (.Int 99)] []
              (some (.Identifier "x")))]) := by
  exact (claim2_return_against_caller_frame hostTable noModules 5
    [("x", Value.Int 1),
     ("g", Value.UserDefFunction "g"
        [.Assignment (.Identifier "x") (.Int 99)] []
        (some (.Identifier "x")))]
    [("x", Value.Int 1),
     ("g", Value.UserDefFunction "g"
        [.Assignment (.Identifier "x") (.Int 99)] []
        (some (.Identifier "x")))]
    (("x", Value.Int 99) ::
      [("x", Value.Int 1),
       ("g", Value.UserDefFunction "g"
          [.Assignment (.Identifier "x") (.Int 99)] []
          (some (.Identifier "x")))])
    "g" [] [] "g" [.Assignment (.Identifier "x") (.Int 99)] []
    (some (.Identifier "x")) false rfl rfl rfl rfl).trans rfl

/-- Claim C5.  A call of a user-defined function runs the body against
`bindArgs vals params env`, the full duplicate of the caller's frame with
the parameters bound positionally into it (the duplication is
`enviornment.clone()` at line 425); whatever the body does to that duplicate
(`envBody` is arbitrary below and absent from the conclusion), the call
returns with the caller's frame exactly as it was: mutating a parameter
inside the callee does not change the caller's identically-named binding. -/
theorem claim5_call_frame_isolation :
    ∀ (tbl : NativeTable) (moduleOf : String → Option Program) (fuel : Nat)
      (env envBody : Env) (f : String) (args : List Expression)
      (vals : List Value) (fname : String) (stmts : List Statement)
      (params : List String) (retOpt : Option Expression) (imp : Bool),
      evalExpressions tbl moduleOf fuel env args imp = .ok (vals, env) →
      Env.get env f = some (.UserDefFunction fname stmts params retOpt) →
      vals.length = params.length →
      evalStatements tbl moduleOf fuel (bindArgs vals params env) stmts imp
        = .ok envBody →
      match retOpt with
      | none =>
        evalExpression tbl moduleOf (fuel + 1) env (.Call f args) imp
          = .ok (.Null, env)
      | some return_exp =>
        ∀ (v : Value) (envR : Env),
          evalExpression tbl moduleOf fuel env return_exp imp = .ok (v, envR) →
          evalExpression tbl moduleOf (fuel + 1) env (.Call f args) imp
            = .ok (v, env) := by
  intro tbl moduleOf fuel env envBody f args vals fname stmts params retOpt
    imp hargs hf hlen hbody
  cases retOpt with
  | none =>
    simp only [evalExpression, hargs, hf, hbody]
    rw [if_neg (not_not_intro hlen)]
  | some return_exp =>
    intro v envR hret
    simp only [evalExpression, hargs, hf, hbody, hret]
    rw [if_neg (not_not_intro hlen)]

/-- Witness for C5: caller frame has `x = 1`; `g(x)` has body `x = 99` and
no return expression.  `g(5)` returns Null with the caller's frame
unchanged, its `x` still `1`. -/
theorem claim5_witness :
    evalExpression hostTable noModules 6
        [("x", Value.Int 1),
         ("g", Value.UserDefFunction "g"
            [.Assignment (.Identifier "x") (.Int 99)] ["x"] none)]
        (.Call "g" [.Int 5]) false
      = .ok (Value.Null,
          [("x", Value.Int 1),
           ("g", Value.UserDefFunction "g"
              [.Assignment (.Identifier "x") (.Int 99)] ["x"] none)]) ∧
    Env.get
        [("x", Value.Int 1),
         ("g", Value.UserDefFunction "g"
            [.Assignment (.Identifier "x") (.Int 99)] ["x"] none)] "x"
      = some (Value.Int 1) := by
  refine ⟨?_, rfl⟩
  exact claim5_call_frame_isolation hostTable noModules 5
    [("x", Value.Int 1),
     ("g", Value.UserDefFunction "g"
        [.Assignment (.Identifier "x") (.Int 99)] ["x"] none)]
    (("x", Value.Int 99) :: ("x", Value.Int 5) ::
      [("x", Value.Int 1),
       ("g", Value.UserDefFunction "g"
          [.Assignment (.Identifier "x") (.Int 99)] ["x"] none)])
    "g" [.Int 5] [.Int 5] "g" [.Assignment (.Identifier "x") (.Int 99)]
    ["x"] none false rfl rfl rfl rfl

/-- An import oracle with a single module `m` containing
`println("x"); v = 5;`. -/
def moduleM : String → Option Program := fun p =>
  if p = "m" then
    some (.Body [.Expression (.Call "println" [.String "x"]),
                 .Assignment (.Identifier "v") (.Int 5)])
  else none

/-- Claim C8.  With `importing` true, a call to `print` or `println` whose
resolved target is a native `Function` returns Null after its arguments were
evaluated eagerly left-to-right (the environment those evaluations produce is
kept), without invoking the native callable: the conclusion holds for every
dispatch table `tbl`, including tables whose entries all fail.  An Import
statement evaluates the resolved module into the same frame with
`importing = true` regardless of the current flag, so an imported module's
print output is suppressed while its definitions persist in the importing
frame. -/
theorem claim8_import_suppression :
    ∀ (tbl : NativeTable) (moduleOf : String → Option Program) (fuel : Nat)
      (env env' : Env) (args : List Expression) (vals : List Value)
      (fname path : String) (prog : Program) (imp : Bool),
      (evalExpressions tbl moduleOf fuel env args true = .ok (vals, env') →
       Env.get env' "println" = some (.Function fname) →
       evalExpression tbl moduleOf (fuel + 1) env (.Call "println" args) true
         = .ok (.Null, env')) ∧
      (evalExpressions tbl moduleOf fuel env args true = .ok (vals, env') →
       Env.get env' "print" = some (.Function fname) →
       evalExpression tbl moduleOf (fuel + 1) env (.Call "print" args) true
         = .ok (.Null, env')) ∧
      (moduleOf path = some prog →
       evalStatement tbl moduleOf (fuel + 1) env (.Import path) imp
         = evalProgram tbl moduleOf fuel env prog true) := by
  intro tbl moduleOf fuel env env' args vals fname path prog imp
  refine ⟨?_, ?_, ?_⟩
  · intro hargs hf
    simp only [evalExpression, hargs, hf]
    rfl
  · intro hargs hf
    simp only [evalExpression, hargs, hf]
    rfl
  · intro hmod
    cases prog with
    | Body stmts => simp only [evalStatement, hmod, evalProgram]

/-- Witness for C8: importing module `m` (which prints and defines `v = 5`)
under a dispatch table whose every native entry fails: the import succeeds —
so no native callable was invoked, i.e. the module's output is suppressed —
and `v = 5` persists in the importing frame. -/
theorem claim8_witness :
    moduleM "m"
      = some (.Body [.Expression (.Call "println" [.String "x"]),
                     .Assignment (.Identifier "v") (.Int 5)]) ∧
    evalStatement hostTable moduleM 10 [("println", Value.Function "println")]
        (.Import "m") false
      = .ok [("v", Value.Int 5), ("println", Value.Function "println")] := by
  refine ⟨rfl, ?_⟩
  exact ((claim8_import_suppression hostTable moduleM 9
    [("println", Value.Function "println")]
    [("println", Value.Function "println")] [] [] "println" "m"
    (.Body [.Expression (.Call "println" [.String "x"]),
            .Assignment (.Identifier "v") (.Int 5)]) false).2.2 rfl).trans rfl

/-- Claim C9.  A For statement whose iterable expression is not a List
literal, an Identifier or a Call fails with the kind-specific "not iterable"
message of `forKindError` without evaluating the expression: the error holds
for every environment and every fuel, including fuel 1, at which any
evaluation of the expression itself would exhaust the fuel.  For the three
admitted kinds the evaluated result must be a List (else "Invalid Type"),
and the loop rebinds the loop variable directly in the enclosing frame and
runs the body once per element in order: iterating `[10,20]` with body
`s = s + x` from `s = 0` ends with `s = 30` and with `x = 20` still bound in
the enclosing frame. -/
theorem claim9_for_statement :
    (∀ (tbl : NativeTable) (moduleOf : String → Option Program) (fuel : Nat)
       (env : Env) (lv : String) (e : Expression) (body : List Statement)
       (imp : Bool) (msg : String),
       forKindError e = some msg →
       evalStatement tbl moduleOf (fuel + 1) env (.For (.mk lv e body)) imp
         = .err msg) ∧
    (∀ (tbl : NativeTable) (moduleOf : String → Option Program) (fuel : Nat)
       (env env' : Env) (lv : String) (e : Expression)
       (body : List Statement) (imp : Bool) (v : Value),
       forKindError e = none →
       evalExpression tbl moduleOf fuel env e imp = .ok (v, env') →
       v.isList = false →
       evalStatement tbl moduleOf (fuel + 1) env (.For (.mk lv e body)) imp
         = .err ("Invalid Type")) ∧
    (∀ (tbl : NativeTable) (moduleOf : String → Option Program) (fuel : Nat)
       (env env' : Env) (lv : String) (e : Expression)
       (body : List Statement) (imp : Bool) (items : List Value),
       forKindError e = none →
       evalExpression tbl moduleOf fuel env e imp = .ok (.List items, env') →
       evalStatement tbl moduleOf (fuel + 1) env (.For (.mk lv e body)) imp
         = forLoop tbl moduleOf fuel env' lv items body imp) ∧
    (match evalStatement hostTable noModules 20 [("s", Value.Int 0)]
        (.For (.mk "x"
          (.List [ListItem.mk (.Int 10) false false,
                  ListItem.mk (.Int 20) false false])
          [.Assignment (.Identifier "s")
             (.Operation (.Identifier "s") (.Identifier "x") .Plus)]))
        false with
     | .ok envF =>
        Env.get envF "s" = some (Value.Int 30) ∧
        Env.get envF "x" = some (Value.Int 20)
     | _ => False) := by
  refine ⟨?_, ?_, ?_, ⟨rfl, rfl⟩⟩
  · intro tbl moduleOf fuel env lv e body imp msg hkind
    cases e <;>
      simp_all [forKindError, evalStatement, ForParams.iterate_expression]
  · intro tbl moduleOf fuel env env' lv e body imp v hkind hev hlist
    cases e <;> simp_all [forKindError] <;>
      · simp only [evalStatement, ForParams.iterate_expression, hev]
        cases v <;> simp_all [Value.isList]
  · intro tbl moduleOf fuel env env' lv e body imp items hkind hev
    cases e <;> simp_all [forKindError] <;>
      simp only [evalStatement, ForParams.iterate_expression, hev,
        ForParams.loop_var, ForParams.statements]

/-- Witness for C9: an Operation iterable fails with the Operations message
at fuel 1 (where evaluating the operation itself would be impossible), and a
non-List evaluated result fails with "Invalid Type". -/
theorem claim9_witness :
    forKindError (.Operation (.Identifier "nope") (.Int 1) .Plus)
        = some ("Operations are not iterable") ∧
    evalStatement hostTable noModules 1 []
        (.For (.mk "x" (.Operation (.Identifier "nope") (.Int 1) .Plus) []))
        false
      = .err ("Operations are not iterable") ∧
    evalStatement hostTable noModules 3 [("n", Value.Int 7)]
        (.For (.mk "x" (.Identifier "n") [])) false
      = .err ("Invalid Type") := by
  refine ⟨rfl, ?_, ?_⟩
  · exact (claim9_for_statement).1 hostTable noModules 0 [] "x"
      (.Operation (.Identifier "nope") (.Int 1) .Plus) [] false
      ("Operations are not iterable") rfl
  · exact (claim9_for_statement).2.1 hostTable noModules 2
      [("n", Value.Int 7)] [("n", Value.Int 7)] "x" (.Identifier "n") []
      false (Value.Int 7) rfl rfl rfl

end Rustl
